import Mathlib

/-!
Shallow embedding of the rasp-utilities email tools
(src/email/email_check.py and src/email/show_status.py).

Modelling conventions:
* File-system paths are lists of path components (Path.home() is a
  parameter `home`); the "/" joining is only used for user-visible text.
* Timestamps are integer epoch seconds; the ISO-8601 rendering of a
  timestamp is abstracted by the integer itself (serialisation of the
  ResultDocument is lossless for the fields the properties mention).
* External effects (network, keyring, interactive prompts) are supplied
  by an oracle environment: each step of a handler is given as an
  `Except String _` value, `Except.error e` standing for a raised Python
  exception with message `e`, `Except.ok` for normal completion.
* Python dictionaries are association lists in insertion order;
  assignment to an existing key replaces the value in place.
-/

/-- One entry of config.json: an account descriptor
(email_check.py, `_load_config` / `_setup_handlers`). -/
structure Account where
  name : String
  email : String
  type : String
  imap_server : Option String := none
  imap_port : Option Nat := none
deriving DecidableEq, Repr

/-- The two handler variants instantiated by `EmailCounter._setup_handlers`
(email_check.py lines 187-197): `GmailHandler(account["name"], account["email"])`
for type "gmail", `ImapHandler(account)` otherwise. -/
inductive Handler where
  | gmail (account_name : String) (email : String)
  | imap (account : Account)
deriving DecidableEq, Repr

/-- True exactly on the OAuth (Gmail API) handler variant. -/
def Handler.isOauth : Handler → Bool
  | Handler.gmail _ _ => true
  | Handler.imap _ => false

namespace GmailHandler

/-- Oracle for one `GmailHandler.get_unread_count` call:
`service` is the handler's session-handle state at call time
(`None` until `authenticate` has run), `auth` is what `authenticate()`
would do (raise, or return a Bool), `query` is what the
`users().messages().list(...).execute()` call would do
(raise, or return the list of message ids). -/
structure Env where
  service : Option Unit
  auth : Except String Bool
  query : Except String (List String)

/-- Model of `GmailHandler.get_unread_count` (email_check.py lines 87-105).
The `authenticate()` call happens before the `try:` block, so an
exception it raises propagates; the query sits inside `try/except`,
whose handler returns -1. -/
def get_unread_count (env : Env) : Except String Int :=
  match env.service with
  | some _ =>
    match env.query with
    | Except.ok msgs => Except.ok (msgs.length : Int)
    | Except.error _ => Except.ok (-1)
  | none =>
    match env.auth with
    | Except.error e => Except.error e
    | Except.ok false => Except.ok (-1)
    | Except.ok true =>
      match env.query with
      | Except.ok msgs => Except.ok (msgs.length : Int)
      | Except.error _ => Except.ok (-1)

end GmailHandler

/-- Helper for `splitTokens`: walk the characters, accumulating the
current token (in reverse); whitespace flushes the token, and empty
tokens are dropped. -/
def splitWs : List Char → List Char → List String
  | [], acc => if acc = [] then [] else [String.mk acc.reverse]
  | c :: cs, acc =>
    if c.isWhitespace then
      if acc = [] then splitWs cs []
      else String.mk acc.reverse :: splitWs cs []
    else splitWs cs (c :: acc)

/-- Python's `bytes.split()` with no argument: split on runs of
whitespace, dropping empty tokens (used on `response[0]` in
`ImapHandler.get_unread_count`). -/
def splitTokens (s : String) : List String :=
  splitWs s.data []

namespace ImapHandler

/-- Oracle for one `ImapHandler.get_unread_count` call: the outcome of
each sequential step (connect via `IMAP4_SSL`, `get_password`, `login`,
`select("INBOX")`, `search(None, "UNSEEN")` returning the status string
and `response[0]`, and `logout`). `Except.error` stands for a raised
exception at that step. -/
structure Env where
  connect : Except String Unit
  password : Except String String
  login : Except String Unit
  selectInbox : Except String Unit
  search : Except String (String × String)
  logout : Except String Unit

/-- Model of `ImapHandler.get_unread_count` (email_check.py lines 131-167).
First component: the returned int. Second component: whether `logout`
was attempted before returning. The whole body is wrapped in
`try/except` returning -1, so no exception escapes; a non-OK search
status returns -1 directly (before the `logout` line); an exception
raised by `logout` itself is caught and also yields -1. -/
def get_unread_count (env : Env) : Int × Bool :=
  match env.connect with
  | Except.error _ => (-1, false)
  | Except.ok _ =>
    match env.password with
    | Except.error _ => (-1, false)
    | Except.ok _ =>
      match env.login with
      | Except.error _ => (-1, false)
      | Except.ok _ =>
        match env.selectInbox with
        | Except.error _ => (-1, false)
        | Except.ok _ =>
          match env.search with
          | Except.error _ => (-1, false)
          | Except.ok (status, response) =>
            if status ≠ "OK" then (-1, false)
            else
              match env.logout with
              | Except.error _ => (-1, true)
              | Except.ok _ => (((splitTokens response).length : Int), true)

end ImapHandler

/-- The world an `EmailCounter` run executes in: the oracle environment
each handler would see, keyed the way the handler is constructed. -/
structure World where
  gmailEnv : String → String → GmailHandler.Env
  imapEnv : Account → ImapHandler.Env

/-- Dispatch of `handler.get_unread_count()` over the two variants.
The IMAP variant never raises (its body is one `try/except`); the Gmail
variant can propagate an exception out of `authenticate`. -/
def runHandler (w : World) : Handler → Except String Int
  | Handler.gmail n e => GmailHandler.get_unread_count (w.gmailEnv n e)
  | Handler.imap a => Except.ok (ImapHandler.get_unread_count (w.imapEnv a)).1

/-- First value stored under key `k`, as Python dict lookup. -/
def lookupName {α : Type} (k : String) : List (String × α) → Option α
  | [] => none
  | (n, v) :: rest => if n = k then some v else lookupName k rest

/-- Python dict assignment `d[k] = v` on an insertion-ordered
association list: replace in place when the key is present, else append. -/
def dictInsert {α : Type} (d : List (String × α)) (k : String) (v : α) :
    List (String × α) :=
  if k ∈ d.map Prod.fst then
    d.map (fun p => if p.1 = k then (k, v) else p)
  else d ++ [(k, v)]

namespace EmailCounter

/-- The handler `_setup_handlers` builds for one descriptor
(email_check.py lines 189-197): `GmailHandler` exactly when
`account["type"] == "gmail"`, `ImapHandler` for every other type. -/
def handlerFor (account : Account) : Handler :=
  if account.type = "gmail" then Handler.gmail account.name account.email
  else Handler.imap account

/-- The `for account in self.accounts` loop of `_setup_handlers`,
carrying the `self.handlers` dict. -/
def setup_handlers_aux (handlers : List (String × Handler)) :
    List Account → List (String × Handler)
  | [] => handlers
  | account :: rest =>
      setup_handlers_aux (dictInsert handlers account.name (handlerFor account)) rest

/-- Model of `EmailCounter._setup_handlers`, starting from the empty dict. -/
def setup_handlers (accounts : List Account) : List (String × Handler) :=
  setup_handlers_aux [] accounts

/-- The last descriptor in config order whose name is `k` (the one whose
handler survives the `_setup_handlers` loop). -/
def lastMatching (k : String) : List Account → Option Account
  | [] => none
  | a :: rest =>
    match lastMatching k rest with
    | some b => some b
    | none => if a.name = k then some a else none

/-- Model of `EmailCounter.check_all_accounts` (email_check.py lines 240-246).
First component: the account names whose `get_unread_count` was invoked
(in order, up to and including a raising one). Second component: the
results dict, or the propagated exception. -/
def check_all_accounts :
    List (String × Handler) → World →
      List String × Except String (List (String × Int))
  | [], _ => ([], Except.ok [])
  | (n, h) :: rest, w =>
    match runHandler w h with
    | Except.error e => ([n], Except.error e)
    | Except.ok c =>
      match check_all_accounts rest w with
      | (tr, Except.error e) => (n :: tr, Except.error e)
      | (tr, Except.ok m) => (n :: tr, Except.ok ((n, c) :: m))

end EmailCounter

/-- A parsed last_results.json document:
timestamp (epoch seconds, abstracting the ISO string) and per-account
counts. `json.load` plus `.get` defaults are reflected by the `Option`
timestamp and the counts list. -/
structure ResultDoc where
  timestamp : Option Int
  counts : List (String × Int)
deriving DecidableEq, Repr

/-- The file system as seen through last_results.json reads/writes:
a path maps to the parsed document stored there, `none` when absent. -/
def Fs : Type := List String → Option ResultDoc

namespace email_check

/-- Source: `CONFIG_DIR = Path.home() / ".config" / "email_check"`
(email_check.py line 31). -/
def CONFIG_DIR (home : List String) : List String :=
  home ++ [".config", "email_check"]

/-- Source: `RESULTS_PATH = CONFIG_DIR / "last_results.json"`
(email_check.py line 34). -/
def RESULTS_PATH (home : List String) : List String :=
  CONFIG_DIR home ++ ["last_results.json"]

end email_check

/-- Model of `EmailCounter.save_results` (email_check.py lines 248-256): wrap the
results with the current timestamp and overwrite the singleton file at
`email_check.RESULTS_PATH`. -/
def EmailCounter.save_results (home : List String) (now : Int)
    (results : List (String × Int)) (fs : Fs) : Fs :=
  fun p => if p = email_check.RESULTS_PATH home then
    some ⟨some now, results⟩ else fs p

namespace email_check

/-- Parsed CLI flags of email_check.py. -/
structure Args where
  output_json : Bool
  output_text : Bool
  configure : Bool

/-- Model of `main` of email_check.py (lines 281-346), restricted to the
observables the properties mention: the exit code, the account names
whose `get_unread_count` was invoked, and the resulting file system.
`--configure` runs the password utility and returns 0 without any check;
an empty accounts list would raise `IndexError` at `accounts[0]`
(modelled as `Except.error`); a placeholder first email returns 1 before
any check; otherwise the `try:` block checks all accounts and saves,
a propagated exception being caught and turned into exit code 1. -/
def main (args : Args) (home : List String) (accounts : List Account)
    (w : World) (fs : Fs) (now : Int) :
    Except String (Int × List String × Fs) :=
  if args.configure then Except.ok (0, [], fs)
  else
    match accounts with
    | [] => Except.error "IndexError: list index out of range"
    | first :: _ =>
      if first.email = "your.email@gmail.com" then Except.ok (1, [], fs)
      else
        match EmailCounter.check_all_accounts (EmailCounter.setup_handlers accounts) w with
        | (tr, Except.error _) => Except.ok (1, tr, fs)
        | (tr, Except.ok results) =>
            Except.ok (0, tr, EmailCounter.save_results home now results fs)

end email_check

namespace show_status

/-- Source: `CONFIG_DIR = Path.home() / ".config" / "email_counter"`
(show_status.py line 7) — note the directory name differs from the
checker's `email_check`. -/
def CONFIG_DIR (home : List String) : List String :=
  home ++ [".config", "email_counter"]

/-- Source: `RESULTS_PATH = CONFIG_DIR / "last_results.json"`
(show_status.py line 8). -/
def RESULTS_PATH (home : List String) : List String :=
  CONFIG_DIR home ++ ["last_results.json"]

/-- The deprecated fallback `Path.home() / ".email_counter" /
"last_results.json"` (show_status.py line 44). -/
def LEGACY_RESULTS_PATH (home : List String) : List String :=
  home ++ [".email_counter", "last_results.json"]

/-- Model of `format_time_ago` (show_status.py lines 11-26). `now` and `ts` are
epoch seconds; `days`/`seconds` mirror Python's normalised
`timedelta.days` (floor) and `timedelta.seconds` (remainder in
[0, 86400)). The day branch has no singular form in the source. -/
def format_time_ago (now ts : Int) : String :=
  let diff := now - ts
  let days := diff.fdiv 86400
  let seconds := diff.fmod 86400
  if 0 < days then toString days ++ " days ago"
  else if 3600 ≤ seconds then
    let hours := seconds.fdiv 3600
    toString hours ++ " hour" ++ (if 1 < hours then "s" else "") ++ " ago"
  else if 60 ≤ seconds then
    let minutes := seconds.fdiv 60
    toString minutes ++ " minute" ++ (if 1 < minutes then "s" else "") ++ " ago"
  else toString seconds ++ " second" ++ (if seconds ≠ 1 then "s" else "") ++ " ago"

/-- One per-account line of the text report (show_status.py lines 67-71,
same format as the checker's lines 332-336). -/
def statusLine (p : String × Int) : String :=
  if 0 ≤ p.2 then p.1 ++ ": " ++ toString p.2 ++ " unread"
  else p.1 ++ ": Error checking inbox"

/-- Rendering of the counts object for `json.dumps`. -/
def renderCountsJson : List (String × Int) → String
  | [] => ""
  | [p] => "\x22" ++ p.1 ++ "\x22: " ++ toString p.2
  | p :: rest => "\x22" ++ p.1 ++ "\x22: " ++ toString p.2 ++ ", " ++ renderCountsJson rest

/-- Rendering of the whole stored document for `json.dumps(data)`. -/
def renderJsonDoc (d : ResultDoc) : String :=
  "\x7b\x22timestamp\x22: " ++
    (match d.timestamp with
     | some t => toString t
     | none => "null") ++
    ", \x22counts\x22: \x7b" ++ renderCountsJson d.counts ++ "\x7d\x7d"

/-- User-visible rendering of a path. -/
def renderPath (p : List String) : String :=
  "/" ++ String.intercalate "/" p

/-- Parsed CLI flags of show_status.py. -/
structure Args where
  json : Bool
  legacy_path : Bool

/-- The path-selection prologue of `main` (show_status.py lines 39-49):
start from `RESULTS_PATH`; when it is absent and `--legacy-path` is set
and the legacy file exists, switch to it and print a migration notice.
Returns the chosen path and the lines printed so far. -/
def pickPath (args : Args) (home : List String) (fs : Fs) :
    List String × List String :=
  if (fs (RESULTS_PATH home)).isNone && args.legacy_path then
    if (fs (LEGACY_RESULTS_PATH home)).isSome then
      (LEGACY_RESULTS_PATH home,
        ["Using legacy configuration path. Consider migrating to the new location."])
    else (RESULTS_PATH home, [])
  else (RESULTS_PATH home, [])

/-- Model of `main` of show_status.py (lines 29-84): the printed lines, the exit
code, and the file system after the run (the source only ever opens the
file for reading, so the returned file system is the input one). -/
def main (args : Args) (home : List String) (fs : Fs) (now : Int) :
    List String × Int × Fs :=
  let pick := pickPath args home fs
  match fs pick.1 with
  | none =>
    (pick.2 ++ ["No email status data found. Run email_counter first.",
      "Expected path: " ++ renderPath (RESULTS_PATH home)], 1, fs)
  | some data =>
    if args.json then (pick.2 ++ [renderJsonDoc data], 0, fs)
    else
      let countLines := data.counts.map statusLine
      let timeLines :=
        match data.timestamp with
        | some ts =>
          ["Last checked: " ++ format_time_ago now ts,
           "Exact time: " ++ toString ts]
        | none => []
      (pick.2 ++ ["--- Email Inbox Status ---"] ++ countLines ++ timeLines, 0, fs)

end show_status

/-! ### Association-list lemmas -/

theorem lookupName_nil {α : Type} (k : String) :
    lookupName (α := α) k [] = none := rfl

theorem lookupName_cons {α : Type} (k n : String) (v : α) (rest : List (String × α)) :
    lookupName k ((n, v) :: rest) = if n = k then some v else lookupName k rest := rfl

theorem lookupName_replace {α : Type} (d : List (String × α)) (k : String) (v : α)
    (h : k ∈ d.map Prod.fst) :
    lookupName k (d.map fun p => if p.1 = k then (k, v) else p) = some v := by
  induction d with
  | nil => simp at h
  | cons p rest ih =>
    obtain ⟨n, w⟩ := p
    by_cases hp : n = k
    · simp [lookupName_cons, hp]
    · have h1 : k = n ∨ k ∈ rest.map Prod.fst := by
        rw [List.map_cons] at h
        exact List.mem_cons.mp h
      have hmem : k ∈ rest.map Prod.fst := by
        rcases h1 with h1 | h1
        · exact absurd h1.symm hp
        · exact h1
      simpa [lookupName_cons, hp] using ih hmem

theorem lookupName_replace_ne {α : Type} (d : List (String × α))
    {j k : String} (v : α) (h : j ≠ k) :
    lookupName k (d.map fun p => if p.1 = j then (j, v) else p) = lookupName k d := by
  induction d with
  | nil => rfl
  | cons p rest ih =>
    obtain ⟨n, w⟩ := p
    by_cases hp : n = j
    · subst hp
      simp [lookupName_cons, h, ih]
    · simp [lookupName_cons, hp, ih]

theorem lookupName_append_single_ne {α : Type} (d : List (String × α))
    {j k : String} (v : α) (h : j ≠ k) :
    lookupName k (d ++ [(j, v)]) = lookupName k d := by
  induction d with
  | nil => simp [lookupName_cons, lookupName_nil, h]
  | cons p rest ih =>
    obtain ⟨n, w⟩ := p
    by_cases hp : n = k <;> simp [lookupName_cons, hp, ih]

theorem lookupName_dictInsert_self {α : Type} (d : List (String × α)) (k : String) (v : α) :
    lookupName k (dictInsert d k v) = some v := by
  unfold dictInsert
  split
  · exact lookupName_replace d k v (by assumption)
  · rename_i hnot
    induction d with
    | nil => simp [lookupName_cons]
    | cons p rest ih =>
      obtain ⟨n, w⟩ := p
      have hn : ¬ n = k := fun he => hnot (by simp [he])
      have hr : ¬ k ∈ rest.map Prod.fst := fun hk => hnot (by simp [hk])
      simp only [List.cons_append, lookupName_cons, if_neg hn]
      exact ih hr

theorem lookupName_dictInsert_ne {α : Type} (d : List (String × α))
    {j k : String} (v : α) (h : j ≠ k) :
    lookupName k (dictInsert d j v) = lookupName k d := by
  unfold dictInsert
  split
  · exact lookupName_replace_ne d v h
  · exact lookupName_append_single_ne d v h

theorem keys_replace {α : Type} (d : List (String × α)) (j : String) (v : α) :
    ((d.map fun p => if p.1 = j then (j, v) else p).map Prod.fst) = d.map Prod.fst := by
  induction d with
  | nil => rfl
  | cons p rest ih =>
    obtain ⟨n, w⟩ := p
    by_cases hp : n = j <;> simp [hp, ih]

theorem keys_dictInsert {α : Type} (d : List (String × α)) (j : String) (v : α) :
    (dictInsert d j v).map Prod.fst =
      if j ∈ d.map Prod.fst then d.map Prod.fst else d.map Prod.fst ++ [j] := by
  unfold dictInsert
  split
  · exact keys_replace d j v
  · simp

/-! ### Registry lemmas: the handler surviving `_setup_handlers` -/

theorem lookupName_setup_handlers_aux (accounts : List Account)
    (d : List (String × Handler)) (k : String) :
    lookupName k (EmailCounter.setup_handlers_aux d accounts) =
      match EmailCounter.lastMatching k accounts with
      | some a => some (EmailCounter.handlerFor a)
      | none => lookupName k d := by
  induction accounts generalizing d with
  | nil => simp [EmailCounter.setup_handlers_aux, EmailCounter.lastMatching]
  | cons a rest ih =>
    rw [EmailCounter.setup_handlers_aux, ih]
    cases h : EmailCounter.lastMatching k rest with
    | some b => simp [EmailCounter.lastMatching, h]
    | none =>
      by_cases ha : a.name = k
      · rw [show EmailCounter.lastMatching k (a :: rest) = some a by
          rw [EmailCounter.lastMatching, h]
          simp [ha]]
        rw [← ha, lookupName_dictInsert_self]
      · rw [show EmailCounter.lastMatching k (a :: rest) = none by
          rw [EmailCounter.lastMatching, h]
          simp [ha]]
        exact lookupName_dictInsert_ne d _ ha

theorem keys_setup_handlers_aux_nodup (accounts : List Account)
    (d : List (String × Handler)) (h : (d.map Prod.fst).Nodup) :
    ((EmailCounter.setup_handlers_aux d accounts).map Prod.fst).Nodup := by
  induction accounts generalizing d with
  | nil => simpa [EmailCounter.setup_handlers_aux]
  | cons a rest ih =>
    rw [EmailCounter.setup_handlers_aux]
    apply ih
    rw [keys_dictInsert]
    split
    · exact h
    · rename_i hnot
      refine List.Nodup.append h (List.nodup_singleton _) ?_
      intro x hx hx2
      simp only [List.mem_singleton] at hx2
      subst hx2
      exact hnot hx

theorem keys_setup_handlers_aux_of_nodup (accounts : List Account)
    (d : List (String × Handler))
    (h1 : (accounts.map Account.name).Nodup)
    (h2 : ∀ n ∈ accounts.map Account.name, n ∉ d.map Prod.fst) :
    (EmailCounter.setup_handlers_aux d accounts).map Prod.fst =
      d.map Prod.fst ++ accounts.map Account.name := by
  induction accounts generalizing d with
  | nil => simp [EmailCounter.setup_handlers_aux]
  | cons a rest ih =>
    rw [EmailCounter.setup_handlers_aux]
    have hab : a.name ∉ d.map Prod.fst := h2 a.name (by simp)
    have hk : (dictInsert d a.name (EmailCounter.handlerFor a)).map Prod.fst =
        d.map Prod.fst ++ [a.name] := by
      rw [keys_dictInsert, if_neg hab]
    have hcons := List.nodup_cons.mp (by simpa using h1 :
      (a.name :: rest.map Account.name).Nodup)
    have h2' : ∀ n ∈ rest.map Account.name,
        n ∉ (dictInsert d a.name (EmailCounter.handlerFor a)).map Prod.fst := by
      intro n hn
      rw [hk]
      intro hmem
      rcases List.mem_append.mp hmem with hm | hm
      · exact h2 n (by simp; right; simpa using hn) hm
      · simp only [List.mem_singleton] at hm
        subst hm
        exact hcons.1 hn
    rw [ih _ hcons.2 h2', hk]
    simp

theorem lastMatching_mem {k : String} {l : List Account} {c : Account}
    (h : EmailCounter.lastMatching k l = some c) : c ∈ l ∧ c.name = k := by
  induction l with
  | nil => simp [EmailCounter.lastMatching] at h
  | cons d ds ih =>
    rw [EmailCounter.lastMatching] at h
    cases hd : EmailCounter.lastMatching k ds with
    | some e =>
      rw [hd] at h
      injection h with h
      subst h
      obtain ⟨h1, h2⟩ := ih hd
      exact ⟨List.mem_cons_of_mem _ h1, h2⟩
    | none =>
      rw [hd] at h
      by_cases hdn : d.name = k
      · rw [if_pos hdn] at h
        injection h with h
        subst h
        exact ⟨List.mem_cons_self _ _, hdn⟩
      · rw [if_neg hdn] at h
        cases h

theorem lastMatching_eq_none {k : String} {l : List Account}
    (h : k ∉ l.map Account.name) : EmailCounter.lastMatching k l = none := by
  induction l with
  | nil => rfl
  | cons d ds ih =>
    rw [EmailCounter.lastMatching]
    have hds : k ∉ ds.map Account.name := fun hm => h (by simp; right; simpa using hm)
    have hd : ¬ d.name = k := fun he => h (by simp [he])
    rw [ih hds, if_neg hd]

theorem lastMatching_of_mem_nodup {accounts : List Account} {a : Account}
    (hmem : a ∈ accounts) (hnd : (accounts.map Account.name).Nodup) :
    EmailCounter.lastMatching a.name accounts = some a := by
  induction accounts with
  | nil => simp at hmem
  | cons b rest ih =>
    have hcons := List.nodup_cons.mp (by simpa using hnd :
      (b.name :: rest.map Account.name).Nodup)
    rcases List.mem_cons.mp hmem with h | h
    · subst h
      rw [EmailCounter.lastMatching, lastMatching_eq_none hcons.1]
      simp
    · rw [EmailCounter.lastMatching, ih h hcons.2]

/-! ### Check-loop lemmas -/

theorem check_ok_keys (hs : List (String × Handler)) (w : World)
    (m : List (String × Int))
    (h : (EmailCounter.check_all_accounts hs w).2 = Except.ok m) :
    m.map Prod.fst = hs.map Prod.fst := by
  induction hs generalizing m with
  | nil =>
    simp [EmailCounter.check_all_accounts] at h
    simp [← h]
  | cons p rest ih =>
    obtain ⟨n, hd⟩ := p
    rw [EmailCounter.check_all_accounts] at h
    cases hr : runHandler w hd with
    | error e => rw [hr] at h; simp at h
    | ok c =>
      rw [hr] at h
      cases hrec : EmailCounter.check_all_accounts rest w with
      | mk tr r =>
        rw [hrec] at h
        cases r with
        | error e => simp at h
        | ok m0 =>
          simp only at h
          injection h with h
          subst h
          have := ih m0 (by rw [hrec])
          simp [this]

theorem check_ok_values (hs : List (String × Handler)) (w : World)
    (m : List (String × Int))
    (h : (EmailCounter.check_all_accounts hs w).2 = Except.ok m) :
    ∀ p ∈ m, ∃ hd, runHandler w hd = Except.ok p.2 := by
  induction hs generalizing m with
  | nil =>
    simp [EmailCounter.check_all_accounts] at h
    subst h
    intro p hp
    simp at hp
  | cons p rest ih =>
    obtain ⟨n, hd⟩ := p
    rw [EmailCounter.check_all_accounts] at h
    cases hr : runHandler w hd with
    | error e => rw [hr] at h; simp at h
    | ok c =>
      rw [hr] at h
      cases hrec : EmailCounter.check_all_accounts rest w with
      | mk tr r =>
        rw [hrec] at h
        cases r with
        | error e => simp at h
        | ok m0 =>
          simp only at h
          injection h with h
          subst h
          intro q hq
          rcases List.mem_cons.mp hq with hq | hq
          · subst hq
            exact ⟨hd, hr⟩
          · exact ih m0 (by rw [hrec]) q hq

theorem check_ok_lookup (hs : List (String × Handler)) (w : World)
    (m : List (String × Int))
    (h : (EmailCounter.check_all_accounts hs w).2 = Except.ok m)
    (n : String) (hd : Handler) (hl : lookupName n hs = some hd) :
    ∃ c, runHandler w hd = Except.ok c ∧ lookupName n m = some c := by
  induction hs generalizing m with
  | nil => simp [lookupName_nil] at hl
  | cons p rest ih =>
    obtain ⟨k, h0⟩ := p
    rw [EmailCounter.check_all_accounts] at h
    cases hr : runHandler w h0 with
    | error e => rw [hr] at h; simp at h
    | ok c0 =>
      rw [hr] at h
      cases hrec : EmailCounter.check_all_accounts rest w with
      | mk tr r =>
        rw [hrec] at h
        cases r with
        | error e => simp at h
        | ok m0 =>
          simp only at h
          injection h with h
          subst h
          rw [lookupName_cons] at hl
          by_cases hk : k = n
          · rw [if_pos hk] at hl
            injection hl with hl
            subst hl
            exact ⟨c0, hr, by rw [lookupName_cons, if_pos hk]⟩
          · rw [if_neg hk] at hl
            obtain ⟨c, hc1, hc2⟩ := ih m0 (by rw [hrec]) hl
            exact ⟨c, hc1, by rw [lookupName_cons, if_neg hk]; exact hc2⟩

/-! ### Range of returned counts -/

theorem gmail_count_range (env : GmailHandler.Env) (c : Int)
    (h : GmailHandler.get_unread_count env = Except.ok c) : 0 ≤ c ∨ c = -1 := by
  obtain ⟨s, a, q⟩ := env
  unfold GmailHandler.get_unread_count at h
  cases s with
  | some u =>
    cases q with
    | ok msgs =>
      simp only at h
      injection h with h
      subst h
      exact Or.inl (Int.natCast_nonneg _)
    | error e =>
      simp only at h
      injection h with h
      exact Or.inr h.symm
  | none =>
    cases a with
    | error e => simp at h
    | ok b =>
      cases b with
      | false =>
        simp only at h
        injection h with h
        exact Or.inr h.symm
      | true =>
        cases q with
        | ok msgs =>
          simp only at h
          injection h with h
          subst h
          exact Or.inl (Int.natCast_nonneg _)
        | error e =>
          simp only at h
          injection h with h
          exact Or.inr h.symm

theorem imap_count_range (env : ImapHandler.Env) :
    0 ≤ (ImapHandler.get_unread_count env).1 ∨
      (ImapHandler.get_unread_count env).1 = -1 := by
  obtain ⟨c, p, l, s, se, lo⟩ := env
  unfold ImapHandler.get_unread_count
  cases c with
  | error e => exact Or.inr rfl
  | ok u =>
    cases p with
    | error e => exact Or.inr rfl
    | ok pw =>
      cases l with
      | error e => exact Or.inr rfl
      | ok u2 =>
        cases s with
        | error e => exact Or.inr rfl
        | ok u3 =>
          cases se with
          | error e => exact Or.inr rfl
          | ok pr =>
            obtain ⟨status, response⟩ := pr
            by_cases hst : status ≠ "OK"
            · simp [hst]
            · simp only [if_neg hst]
              cases lo with
              | error e => exact Or.inr rfl
              | ok u4 => exact Or.inl (Int.natCast_nonneg _)

theorem runHandler_count_range (w : World) (h : Handler) (c : Int)
    (hr : runHandler w h = Except.ok c) : 0 ≤ c ∨ c = -1 := by
  cases h with
  | gmail n e => exact gmail_count_range _ c hr
  | imap a =>
    unfold runHandler at hr
    injection hr with hr
    subst hr
    rcases imap_count_range (w.imapEnv a) with h | h
    · exact Or.inl h
    · exact Or.inr h

/-! ### Claim C2 -/

/-- Claim C2, counterexample: when `authenticate()` raises (here a
transport failure during the token refresh, which happens before the
`try:` block), `GmailHandler.get_unread_count` propagates the exception
to its caller instead of returning an int. -/
theorem C2_counterexample :
    GmailHandler.get_unread_count
        (⟨none, Except.error "transport error during refresh", Except.ok []⟩ :
          GmailHandler.Env) =
      Except.error "transport error during refresh" := rfl

/-- Claim C2, amended: whenever `authenticate` completes without raising
(or a session handle already exists), `get_unread_count` returns an int
that is non-negative or -1; an error raised by the unread query is
converted to -1; but an exception raised inside `authenticate` itself
propagates to the caller. -/
theorem C2_error_handling :
    (∀ env : GmailHandler.Env,
        (env.service = some () ∨ (∃ b, env.auth = Except.ok b)) →
        ∃ v : Int, GmailHandler.get_unread_count env = Except.ok v ∧
          (0 ≤ v ∨ v = -1)) ∧
    (∀ (env : GmailHandler.Env) (e : String), env.query = Except.error e →
        (env.service = some () ∨ env.auth = Except.ok true) →
        GmailHandler.get_unread_count env = Except.ok (-1)) ∧
    (∀ (env : GmailHandler.Env) (e : String), env.service = none →
        env.auth = Except.error e →
        GmailHandler.get_unread_count env = Except.error e) := by
  refine ⟨?_, ?_, ?_⟩
  · rintro ⟨s, a, q⟩ h
    cases s with
    | some u =>
      cases u
      cases q with
      | ok msgs => exact ⟨msgs.length, rfl, Or.inl (Int.natCast_nonneg _)⟩
      | error e => exact ⟨-1, rfl, Or.inr rfl⟩
    | none =>
      rcases h with h | ⟨b, hb⟩
      · simp at h
      · dsimp only at hb
        subst hb
        cases b with
        | false => exact ⟨-1, rfl, Or.inr rfl⟩
        | true =>
          cases q with
          | ok msgs => exact ⟨msgs.length, rfl, Or.inl (Int.natCast_nonneg _)⟩
          | error e => exact ⟨-1, rfl, Or.inr rfl⟩
  · rintro ⟨s, a, q⟩ e hq h
    dsimp only at hq
    subst hq
    cases s with
    | some u => cases u; rfl
    | none =>
      rcases h with h | h
      · simp at h
      · dsimp only at h
        subst h
        rfl
  · rintro ⟨s, a, q⟩ e hs ha
    dsimp only at hs ha
    subst hs
    subst ha
    rfl

/-- Witness for C2: a query-level HTTP error with an existing session is
converted to -1. -/
theorem C2_error_handling_witness :
    GmailHandler.get_unread_count
        (⟨some (), Except.ok true, Except.error "HttpError 500"⟩ :
          GmailHandler.Env) = Except.ok (-1) :=
  C2_error_handling.2.1 _ "HttpError 500" rfl (Or.inl rfl)

/-! ### Claim C3 -/

/-- Claim C3, counterexample: a descriptor whose `type` is exactly
"oauth_mail" is given the IMAP handler, not the OAuth handler — the
code's OAuth marker string is "gmail", not "oauth_mail". -/
theorem C3_counterexample :
    EmailCounter.setup_handlers
        [(⟨"Work", "w@example.com", "oauth_mail", none, none⟩ : Account)] =
      [("Work", Handler.imap ⟨"Work", "w@example.com", "oauth_mail", none, none⟩)] ∧
    Handler.isOauth
        (Handler.imap ⟨"Work", "w@example.com", "oauth_mail", none, none⟩) = false :=
  ⟨rfl, rfl⟩

/-- Claim C3, amended: the Registry instantiates the OAuth handler if and
only if the descriptor's `type` field is exactly "gmail"; every other
type value, including unrecognized or misspelled ones (and in particular
"oauth_mail" itself), yields the IMAP handler. -/
theorem C3_gmail_marker : ∀ (accounts : List Account) (a : Account),
    a ∈ accounts → (accounts.map Account.name).Nodup →
    (lookupName a.name (EmailCounter.setup_handlers accounts) =
        some (Handler.gmail a.name a.email) ↔ a.type = "gmail") ∧
    (a.type ≠ "gmail" →
      lookupName a.name (EmailCounter.setup_handlers accounts) =
        some (Handler.imap a)) := by
  intro accounts a hmem hnd
  have hlook : lookupName a.name (EmailCounter.setup_handlers accounts) =
      some (EmailCounter.handlerFor a) := by
    unfold EmailCounter.setup_handlers
    rw [lookupName_setup_handlers_aux, lastMatching_of_mem_nodup hmem hnd]
  refine ⟨⟨?_, ?_⟩, ?_⟩
  · intro h
    rw [hlook] at h
    injection h with h
    unfold EmailCounter.handlerFor at h
    by_cases ht : a.type = "gmail"
    · exact ht
    · rw [if_neg ht] at h
      simp at h
  · intro ht
    rw [hlook]
    unfold EmailCounter.handlerFor
    rw [if_pos ht]
  · intro ht
    rw [hlook]
    unfold EmailCounter.handlerFor
    rw [if_neg ht]

/-- Witness for C3 (amended): in a two-account config, the "gmail"-typed
descriptor gets the OAuth handler and the "icloud"-typed one does not. -/
theorem C3_gmail_marker_witness :
    (lookupName "G" (EmailCounter.setup_handlers
        [(⟨"G", "g@gmail.com", "gmail", none, none⟩ : Account),
         ⟨"I", "i@icloud.com", "icloud", some "imap.mail.me.com", some 993⟩]) =
      some (Handler.gmail "G" "g@gmail.com") ↔ ("gmail" : String) = "gmail") :=
  (C3_gmail_marker
    [⟨"G", "g@gmail.com", "gmail", none, none⟩,
     ⟨"I", "i@icloud.com", "icloud", some "imap.mail.me.com", some 993⟩]
    ⟨"G", "g@gmail.com", "gmail", none, none⟩
    (by decide) (by decide)).1

/-! ### Claim C4 -/

/-- Claim C4, counterexample: on a session whose UNSEEN search reports a
non-OK status, `ImapHandler.get_unread_count` returns -1 without
attempting logout (the second component records whether `mail.logout()`
was reached). -/
theorem C4_counterexample :
    ImapHandler.get_unread_count
        (⟨Except.ok (), Except.ok "hunter2", Except.ok (), Except.ok (),
          Except.ok ("NO", ""), Except.ok ()⟩ : ImapHandler.Env) =
      (-1, false) := rfl

/-- Claim C4, amended: logout is attempted exactly on the executions in
which connect, password retrieval, login, inbox selection and the UNSEEN
search all complete and the search status is "OK"; on every other path
(including the non-OK-status return of -1 and every caught exception)
the function returns without attempting logout. -/
theorem C4_logout_only_on_success : ∀ env : ImapHandler.Env,
    (ImapHandler.get_unread_count env).2 = true ↔
      (env.connect = Except.ok () ∧ (∃ p, env.password = Except.ok p) ∧
       env.login = Except.ok () ∧ env.selectInbox = Except.ok () ∧
       ∃ resp, env.search = Except.ok ("OK", resp)) := by
  rintro ⟨c, p, l, s, se, lo⟩
  cases c with
  | error e => simp [ImapHandler.get_unread_count]
  | ok u =>
    cases u
    cases p with
    | error e => simp [ImapHandler.get_unread_count]
    | ok pw =>
      cases l with
      | error e => simp [ImapHandler.get_unread_count]
      | ok u2 =>
        cases u2
        cases s with
        | error e => simp [ImapHandler.get_unread_count]
        | ok u3 =>
          cases u3
          cases se with
          | error e => simp [ImapHandler.get_unread_count]
          | ok pr =>
            obtain ⟨st, resp⟩ := pr
            by_cases hst : st = "OK"
            · subst hst
              cases lo with
              | error e => simp [ImapHandler.get_unread_count]
              | ok u4 => cases u4; simp [ImapHandler.get_unread_count]
            · simp [ImapHandler.get_unread_count, hst]

/-! ### Claim C5 -/

/-- Claim C5, counterexample: for a difference of exactly one day the
formatter produces the plural "1 days ago" — the day branch of the
source has no singular form. -/
theorem C5_counterexample :
    show_status.format_time_ago 86400 0 = "1 days ago" ∧
      "1 days ago" ≠ "1 day ago" := ⟨rfl, by decide⟩

/-- Shifting both arguments of the formatter by the same base timestamp
leaves the output unchanged. -/
theorem format_time_ago_shift (ts d : Int) :
    show_status.format_time_ago (ts + d) ts = show_status.format_time_ago d 0 := by
  unfold show_status.format_time_ago
  rw [show ts + d - ts = d by ring, show d - 0 = d by ring]

/-- Claim C5, amended: the formatter maps 45 seconds, 5 minutes, 3 hours
and 2 days to the stated strings and uses the singular form for exactly
1 second, 1 minute and 1 hour; for the day unit it always uses the
plural, producing "1 days ago" at exactly one day. -/
theorem C5_formatting : ∀ ts : Int,
    show_status.format_time_ago (ts + 45) ts = "45 seconds ago" ∧
    show_status.format_time_ago (ts + 300) ts = "5 minutes ago" ∧
    show_status.format_time_ago (ts + 10800) ts = "3 hours ago" ∧
    show_status.format_time_ago (ts + 172800) ts = "2 days ago" ∧
    show_status.format_time_ago (ts + 1) ts = "1 second ago" ∧
    show_status.format_time_ago (ts + 60) ts = "1 minute ago" ∧
    show_status.format_time_ago (ts + 3600) ts = "1 hour ago" ∧
    show_status.format_time_ago (ts + 86400) ts = "1 days ago" := by
  intro ts
  refine ⟨?_, ?_, ?_, ?_, ?_, ?_, ?_, ?_⟩ <;>
    · rw [format_time_ago_shift]
      rfl

/-! ### Claim C1 -/

/-- Claim C1: the round trip FAILS in the code. `save_results` writes to
`~/.config/email_check/last_results.json` while the Status Reporter's
default path is `~/.config/email_counter/last_results.json`; for every
results mapping written into an otherwise empty store, the reporter
finds no file, prints the "no data" message and exits 1 instead of
reading back the counts and timestamp. -/
theorem C1_roundtrip_lost : ∀ (home : List String) (ts now : Int)
    (results : List (String × Int)),
    email_check.RESULTS_PATH home ≠ show_status.RESULTS_PATH home ∧
    show_status.main ⟨false, false⟩ home
        (EmailCounter.save_results home ts results (fun _ => none)) now =
      (["No email status data found. Run email_counter first.",
        "Expected path: " ++ show_status.renderPath (show_status.RESULTS_PATH home)],
       1, EmailCounter.save_results home ts results (fun _ => none)) := by
  intro home ts now results
  have hne : email_check.RESULTS_PATH home ≠ show_status.RESULTS_PATH home := by
    intro h
    unfold email_check.RESULTS_PATH email_check.CONFIG_DIR
      show_status.RESULTS_PATH show_status.CONFIG_DIR at h
    rw [List.append_assoc, List.append_assoc] at h
    have h2 := List.append_cancel_left h
    simp at h2
  refine ⟨hne, ?_⟩
  have hfs : EmailCounter.save_results home ts results (fun _ => none)
      (show_status.RESULTS_PATH home) = none := by
    unfold EmailCounter.save_results
    rw [if_neg (fun he => hne he.symm)]
  unfold show_status.main show_status.pickPath
  simp [hfs]

/-! ### Claim C6 -/

/-- Claim C6: with unique descriptor names, whenever `check_all_accounts`
returns normally its mapping has exactly one entry per descriptor name
(in order) and every value is non-negative or exactly -1; moreover a
successful check — a Gmail query that returns a message list, or an IMAP
run whose every step succeeds with an "OK" search — returns the
(non-negative) count of message identifiers, so -1 never comes from a
successful check. -/
theorem C6_check_results :
    (∀ (accounts : List Account) (w : World) (m : List (String × Int)),
        (accounts.map Account.name).Nodup →
        (EmailCounter.check_all_accounts (EmailCounter.setup_handlers accounts) w).2 =
          Except.ok m →
        m.map Prod.fst = accounts.map Account.name ∧
          ∀ p ∈ m, 0 ≤ p.2 ∨ p.2 = -1) ∧
    (∀ (env : GmailHandler.Env) (msgs : List String),
        (env.service = some () ∨ env.auth = Except.ok true) →
        env.query = Except.ok msgs →
        GmailHandler.get_unread_count env = Except.ok (msgs.length : Int) ∧
          (0 : Int) ≤ (msgs.length : Int)) ∧
    (∀ (env : ImapHandler.Env) (resp : String),
        env.connect = Except.ok () → (∃ p, env.password = Except.ok p) →
        env.login = Except.ok () → env.selectInbox = Except.ok () →
        env.search = Except.ok ("OK", resp) → env.logout = Except.ok () →
        (ImapHandler.get_unread_count env).1 = ((splitTokens resp).length : Int) ∧
          (0 : Int) ≤ ((splitTokens resp).length : Int)) := by
  refine ⟨?_, ?_, ?_⟩
  · intro accounts w m hnd hok
    constructor
    · rw [check_ok_keys _ _ _ hok]
      unfold EmailCounter.setup_handlers
      have h := keys_setup_handlers_aux_of_nodup accounts [] hnd
        (by intro n _ hmem; simp at hmem)
      simpa using h
    · intro p hp
      obtain ⟨hd, hhd⟩ := check_ok_values _ _ _ hok p hp
      exact runHandler_count_range w hd p.2 hhd
  · rintro ⟨s, a, q⟩ msgs h hq
    dsimp only at hq
    subst hq
    rcases h with h | h
    · dsimp only at h
      subst h
      exact ⟨rfl, Int.natCast_nonneg _⟩
    · dsimp only at h
      subst h
      cases s with
      | some u => cases u; exact ⟨rfl, Int.natCast_nonneg _⟩
      | none => exact ⟨rfl, Int.natCast_nonneg _⟩
  · rintro ⟨c, p, l, s, se, lo⟩ resp h1 ⟨pw, h2⟩ h3 h4 h5 h6
    dsimp only at h1 h2 h3 h4 h5 h6
    subst h1; subst h2; subst h3; subst h4; subst h5; subst h6
    exact ⟨rfl, Int.natCast_nonneg _⟩

/-- Witness for C6: a one-account config whose Gmail check succeeds with
an empty unread list produces the mapping with that single name and the
count 0. -/
theorem C6_check_results_witness :
    ([("A", (0 : Int))].map Prod.fst =
        ([(⟨"A", "a@gmail.com", "gmail", none, none⟩ : Account)].map Account.name)) ∧
      ∀ p ∈ [("A", (0 : Int))], 0 ≤ p.2 ∨ p.2 = -1 :=
  C6_check_results.1 [⟨"A", "a@gmail.com", "gmail", none, none⟩]
    ⟨fun _ _ => ⟨none, Except.ok true, Except.ok []⟩,
     fun _ => ⟨Except.error "offline", Except.ok "", Except.ok (), Except.ok (),
       Except.ok ("OK", ""), Except.ok ()⟩⟩
    [("A", 0)] (by decide) rfl

/-! ### Claim C7 -/

/-- Claim C7: with `--configure` not given and the first configured
account's email still equal to the documented example address, the
checker CLI returns exit code 1, invokes no handler's
`get_unread_count` (empty trace), and leaves the store untouched. -/
theorem C7_placeholder_guard : ∀ (args : email_check.Args) (first : Account)
    (rest : List Account) (home : List String) (w : World) (fs : Fs) (now : Int),
    args.configure = false →
    first.email = "your.email@gmail.com" →
    email_check.main args home (first :: rest) w fs now =
      Except.ok (1, [], fs) := by
  intro args first rest home w fs now hc he
  unfold email_check.main
  simp [hc, he]

/-- Witness for C7: the freshly written template config (first account
"your.email@gmail.com") makes the checker exit 1 with no check. -/
theorem C7_placeholder_guard_witness :
    email_check.main ⟨false, false, false⟩ ["root"]
        [⟨"Gmail 1", "your.email@gmail.com", "gmail", none, none⟩]
        ⟨fun _ _ => ⟨none, Except.ok false, Except.ok []⟩,
         fun _ => ⟨Except.error "offline", Except.ok "", Except.ok (), Except.ok (),
           Except.ok ("OK", ""), Except.ok ()⟩⟩
        (fun _ => none) 0 =
      Except.ok (1, [], (fun _ => none : Fs)) :=
  C7_placeholder_guard ⟨false, false, false⟩ _ [] ["root"] _ _ 0 rfl rfl

/-! ### Claim C8 -/

/-- Claim C8, counterexample: when the UNSEEN search succeeds with two
message identifiers but the subsequent `logout` raises, the function
returns -1 (the exception is caught by the surrounding handler), not
the token count 2 — so "search succeeds implies count of tokens" fails
as stated. -/
theorem C8_counterexample :
    ImapHandler.get_unread_count
        (⟨Except.ok (), Except.ok "hunter2", Except.ok (), Except.ok (),
          Except.ok ("OK", "1 2"), Except.error "connection reset"⟩ :
          ImapHandler.Env) = (-1, true) ∧
      (splitTokens "1 2").length = 2 ∧ ((-1 : Int) ≠ 2) :=
  ⟨rfl, rfl, by decide⟩

/-- Claim C8, amended: once the search step is reached, a non-OK status
makes `get_unread_count` return -1 (and, the body being one
`try/except`, nothing is raised); an "OK" status yields the number of
space-delimited tokens of the response provided `logout` does not raise,
and -1 (still without raising) when `logout` raises. -/
theorem C8_search_outcome : ∀ (env : ImapHandler.Env) (st resp : String),
    env.connect = Except.ok () → (∃ p, env.password = Except.ok p) →
    env.login = Except.ok () → env.selectInbox = Except.ok () →
    env.search = Except.ok (st, resp) →
    (st ≠ "OK" → ImapHandler.get_unread_count env = (-1, false)) ∧
    (st = "OK" → env.logout = Except.ok () →
      (ImapHandler.get_unread_count env).1 = ((splitTokens resp).length : Int)) ∧
    (st = "OK" → ∀ e, env.logout = Except.error e →
      ImapHandler.get_unread_count env = (-1, true)) := by
  rintro ⟨c, p, l, s, se, lo⟩ st resp h1 ⟨pw, h2⟩ h3 h4 h5
  dsimp only at h1 h2 h3 h4 h5
  subst h1; subst h2; subst h3; subst h4; subst h5
  refine ⟨?_, ?_, ?_⟩
  · intro hst
    unfold ImapHandler.get_unread_count
    simp [hst]
  · intro hst hlo
    dsimp only at hlo
    subst hst; subst hlo
    rfl
  · intro hst e hlo
    dsimp only at hlo
    subst hst; subst hlo
    rfl

/-- Witness for C8 (amended): a non-OK search status yields -1. -/
theorem C8_search_outcome_witness :
    ImapHandler.get_unread_count
        (⟨Except.ok (), Except.ok "pw", Except.ok (), Except.ok (),
          Except.ok ("NO", "searchfail"), Except.ok ()⟩ : ImapHandler.Env) =
      (-1, false) :=
  (C8_search_outcome _ "NO" "searchfail" rfl ⟨"pw", rfl⟩ rfl rfl rfl).1 (by decide)

/-! ### Claim C9 -/

/-- A concrete Result Store holding one document at the reporter's
default path under home directory ["home"]. -/
def fs9 : Fs := fun p =>
  if p = show_status.RESULTS_PATH ["home"] then
    some ⟨some 0, [("Gmail 1", 3)]⟩
  else none

/-- Claim C9, counterexample: two runs of the Status Reporter over the
very same store, five seconds apart (clock readings 45 and 50), print
different output — the default text mode includes a clock-dependent
"time ago" line, so back-to-back runs are not identical. -/
theorem C9_counterexample :
    (show_status.main ⟨false, false⟩ ["home"] fs9 45).1 ≠
      (show_status.main ⟨false, false⟩ ["home"] fs9 50).1 := by
  decide

/-- Claim C9, amended: the reporter never mutates the Result Store, and
its output is a function of the store and the clock alone; with the same
clock reading two runs are literally the same value, and in `--json`
mode the output does not depend on the clock at all. The default text
output does vary with the clock (through the "time ago" line). -/
theorem C9_reporter_reads_only : ∀ (args : show_status.Args)
    (home : List String) (fs : Fs) (now now2 : Int) (l : Bool),
    (show_status.main args home fs now).2.2 = fs ∧
    show_status.main ⟨true, l⟩ home fs now =
      show_status.main ⟨true, l⟩ home fs now2 := by
  intro args home fs now now2 l
  constructor
  · unfold show_status.main
    cases h : fs (show_status.pickPath args home fs).1 with
    | none => simp [h]
    | some data =>
      simp only [h]
      split <;> rfl
  · unfold show_status.main
    cases h : fs (show_status.pickPath ⟨true, l⟩ home fs).1 with
    | none => simp [h]
    | some data => simp [h]

/-! ### Claim C10 -/

/-- Claim C10: the registry keeps at most one handler per name; when a
name occurs several times in the config the surviving handler is the one
built from the LAST descriptor with that name, and when
`check_all_accounts` returns normally the single entry under that name
is the value computed by that later descriptor's handler. -/
theorem C10_duplicate_names : ∀ (accounts : List Account) (k : String) (w : World),
    ((EmailCounter.setup_handlers accounts).map Prod.fst).count k ≤ 1 ∧
    (∀ a, EmailCounter.lastMatching k accounts = some a →
      lookupName k (EmailCounter.setup_handlers accounts) =
        some (EmailCounter.handlerFor a) ∧
      (∀ m, (EmailCounter.check_all_accounts
            (EmailCounter.setup_handlers accounts) w).2 = Except.ok m →
        ∃ c, runHandler w (EmailCounter.handlerFor a) = Except.ok c ∧
          lookupName k m = some c)) := by
  intro accounts k w
  constructor
  · have hnd : ((EmailCounter.setup_handlers accounts).map Prod.fst).Nodup :=
      keys_setup_handlers_aux_nodup accounts [] (by simp)
    exact List.nodup_iff_count_le_one.mp hnd k
  · intro a ha
    have hlook : lookupName k (EmailCounter.setup_handlers accounts) =
        some (EmailCounter.handlerFor a) := by
      unfold EmailCounter.setup_handlers
      rw [lookupName_setup_handlers_aux, ha]
    refine ⟨hlook, ?_⟩
    intro m hm
    exact check_ok_lookup _ w m hm k _ hlook

/-- Two descriptors sharing the name "A": an earlier "gmail" one and a
later "icloud" one. -/
def dupAccounts : List Account :=
  [⟨"A", "a1@gmail.com", "gmail", none, none⟩,
   ⟨"A", "a2@icloud.com", "icloud", some "imap.mail.me.com", some 993⟩]

/-- The later of the two duplicate descriptors. -/
def dupLater : Account :=
  ⟨"A", "a2@icloud.com", "icloud", some "imap.mail.me.com", some 993⟩

/-- A world in which every IMAP check succeeds with three unseen
messages. -/
def dupWorld : World :=
  ⟨fun _ _ => ⟨none, Except.ok false, Except.ok []⟩,
   fun _ => ⟨Except.ok (), Except.ok "pw", Except.ok (), Except.ok (),
     Except.ok ("OK", "7 8 9"), Except.ok ()⟩⟩

/-- Witness for C10: with the duplicate-name config, the registry holds
the later (IMAP) handler under "A" and the check result has the single
entry computed by it. -/
theorem C10_duplicate_names_witness :
    (lookupName "A" (EmailCounter.setup_handlers dupAccounts) =
        some (EmailCounter.handlerFor dupLater)) ∧
      ∃ c, runHandler dupWorld (EmailCounter.handlerFor dupLater) = Except.ok c ∧
        lookupName "A" [("A", (3 : Int))] = some c := by
  have h := (C10_duplicate_names dupAccounts "A" dupWorld).2 dupLater (by decide)
  exact ⟨h.1, h.2 [("A", 3)] rfl⟩
